import Mathlib

/-!
Shallow embedding of the digital-twin chat backend's conversation
orchestration core (`messaging/consumers.py`, `messaging/serializers.py`,
`messaging/services/openrouter_service.py`,
`messaging/services/message_history.py`,
`messaging/services/speech_service.py`).

The persistent store is modelled as a list of `Msg` rows kept in creation
order (`created_at` is assigned at persistence time, so list order is
chronological order).  Handler methods of `ChatConsumer` become pure
functions from a database and inputs to a new database plus an ordered
trace of externally visible effects (channel-layer group sends, direct
socket sends, calls to the completion endpoint).
-/

namespace DigitalTwin

/-- A persisted `Message` row (`core.models.Message`), restricted to the
fields the messaging layer reads or writes. -/
structure Msg where
  id : Nat
  chatId : Nat
  isFromUser : Bool
  msgType : String
  textContent : String
  status : String
  replyTo : Option Nat
  voiceNoteId : Option Nat
  deriving DecidableEq, Repr

/-- The message table, in creation (= chronological) order, together with
the id the next created row will receive. -/
structure DB where
  messages : List Msg
  nextId : Nat
  deriving DecidableEq, Repr

/-- The per-connection session state a `ChatConsumer` holds after
`connect`: the chat id from the URL route and the twin snapshot
(`twin_data`: name plus the `persona_description` and `speaking_style`
entries of `persona_data`), and the connected user's id. -/
structure Session where
  chatId : Nat
  userId : Nat
  twinName : String
  personaDesc : String
  speakingStyle : String
  deriving DecidableEq, Repr

/-- The payload of a `chat_message` group event.  Only
`handle_text_message` includes a `chat_id` key in the payload; the other
call sites omit it, hence the `Option`. -/
structure WireMsg where
  id : Nat
  textContent : String
  isFromUser : Bool
  chatId : Option Nat
  deriving DecidableEq, Repr

/-- Externally visible effects of a handler, in program order. -/
inductive Effect where
  /-- `group_send` of a `typing_indicator` event. -/
  | typing (isTyping : Bool) (userId : String)
  /-- `group_send` of a `chat_message` event. -/
  | chatMessage (m : WireMsg)
  /-- `group_send` of a `read_receipt_update` event. -/
  | readReceiptUpdate (ids : List Nat) (userId : Nat)
  /-- A call to the external completion endpoint
  (`OpenRouterService.generate_response`). -/
  | completionCall
  /-- Direct socket send of a `transcription_completed` event. -/
  | sendTranscriptionCompleted (voiceId : Nat) (transcription : String)
  /-- Direct socket send of a `message` event from the `chat_message`
  delivery handler. -/
  | forwardMessage (m : WireMsg)
  /-- Direct socket send of an `error` event. -/
  | sendError (msg : String)
  deriving DecidableEq, Repr

/-! ### String machinery

`generate_twin_response` post-processes completion text with Python
`re.sub(r"\b...\b", ..., flags=re.IGNORECASE)` and `str` methods.  The
patterns used are literal words (letters, digits and the apostrophe), so
whole-word case-insensitive replacement over the character list is an
exact model: `\b` at the pattern edges holds exactly when the adjacent
character is not a word character, because every pattern starts and ends
with a word character. -/

/-- Python regex word character (`\w` over the ASCII inputs involved). -/
def isWordChar (c : Char) : Bool := c.isAlphanum || c == '_'

/-- Case-insensitive character equality (`re.IGNORECASE`). -/
def ciEq (a b : Char) : Bool := a.toLower == b.toLower

/-- If `s` starts with `pat` case-insensitively, return the remainder. -/
def ciStripPrefix : List Char → List Char → Option (List Char)
  | [], s => some s
  | _ :: _, [] => none
  | p :: ps, c :: cs => if ciEq p c then ciStripPrefix ps cs else none

/-- `\b` before the match: previous character absent or not a word
character (all patterns start with a word character). -/
def prevBoundary : Option Char → Bool
  | none => true
  | some c => !isWordChar c

/-- `\b` after the match: next character absent or not a word character
(all patterns end with a word character). -/
def nextBoundary : List Char → Bool
  | [] => true
  | c :: _ => !isWordChar c

/-- One left-to-right scan of `re.sub` with a whole-word case-insensitive
literal pattern; `fuel` bounds the recursion (the input length suffices,
as every step consumes at least one character). -/
def replaceWWAux (pat repl : List Char) : Nat → Option Char → List Char → List Char
  | 0, _, s => s
  | _ + 1, _, [] => []
  | fuel + 1, prev, c :: cs =>
    match ciStripPrefix pat (c :: cs) with
    | some rest =>
      if prevBoundary prev && nextBoundary rest then
        repl ++ replaceWWAux pat repl fuel pat.getLast? rest
      else
        c :: replaceWWAux pat repl fuel (some c) cs
    | none => c :: replaceWWAux pat repl fuel (some c) cs

/-- `re.sub(rf"\b{pat}\b", repl, s, flags=re.IGNORECASE)` for a literal
word pattern `pat`. -/
def replaceWholeWordCI (pat repl s : String) : String :=
  ⟨replaceWWAux pat.data repl.data s.data.length none s.data⟩

/-- `pat in s` (Python substring test), over any element type. -/
def containsSeq {α : Type} [BEq α] : List α → List α → Bool
  | pat, [] => pat.isEmpty
  | pat, c :: cs => pat.isPrefixOf (c :: cs) || containsSeq pat cs

/-- Python `pat in s` on strings. -/
def strContains (s pat : String) : Bool := containsSeq pat.data s.data

/-- Python `s.endswith(pat)`. -/
def strEndsWith (s pat : String) : Bool := pat.data.reverse.isPrefixOf s.data.reverse

/-- Python `s.lower()` over the ASCII inputs involved. -/
def strLower (s : String) : String := ⟨s.data.map Char.toLower⟩

/-- Python `s.rstrip('.')`. -/
def rstripDots (s : String) : String := ⟨(s.data.reverse.dropWhile (· == '.')).reverse⟩

/-- Python `s.strip()`. -/
def pyStrip (s : String) : String :=
  ⟨((s.data.dropWhile Char.isWhitespace).reverse.dropWhile Char.isWhitespace).reverse⟩

/-- Helper for `pySplitWS`: accumulate the current word (reversed). -/
def splitWSAux : List Char → List Char → List String
  | acc, [] => if acc.isEmpty then [] else [⟨acc.reverse⟩]
  | acc, c :: cs =>
    if c.isWhitespace then
      if acc.isEmpty then splitWSAux [] cs else ⟨acc.reverse⟩ :: splitWSAux [] cs
    else splitWSAux (c :: acc) cs

/-- Python `s.split()`: split on whitespace runs, dropping empty pieces. -/
def pySplitWS (s : String) : List String := splitWSAux [] s.data

/-- Python `sep.join(parts)`. -/
def joinWith (sep : String) : List String → String
  | [] => ""
  | [s] => s
  | s :: rest => s ++ sep ++ joinWith sep rest

/-! ### Completion service (`OpenRouterService.generate_response`) -/

/-- The body of an HTTP response from the completion endpoint, as
`generate_twin_response` later inspects it: either a dict with
`choices[0].message.content`, or some other JSON shape. -/
inductive ORBody where
  | choices (content : String)
  | malformed
  deriving DecidableEq, Repr

/-- Environment behaviour of one call to the completion endpoint that
`generate_response` handles itself: an HTTP response with a status code,
or an `aiohttp.ClientError` (a connection failure such as a refused
connection) caught by its `except aiohttp.ClientError` clause.  Expiry of
the configured `ClientTimeout(total=60)` is NOT such a result: it raises
`asyncio.TimeoutError`, which is not an `aiohttp.ClientError` and escapes
`generate_response` — see `CompletionExchange.timeoutExpired`. -/
inductive HttpResult where
  | response (status : Nat) (body : ORBody)
  | clientError (msg : String)
  deriving DecidableEq, Repr

/-- What `generate_response` hands back to the consumer: the parsed JSON
body on status 200, or a dict carrying an `error` key otherwise. -/
inductive ORResponse where
  | errorResp (msg : String)
  | choicesResp (content : String)
  | otherResp
  deriving DecidableEq, Repr

/-- `OpenRouterService.generate_response` on the exchanges its own code
handles: status 200 returns the response body; any other status returns
`{'error': f"API returned status {s}"}`; a caught `aiohttp.ClientError`
returns `{'error': f"Connection error: {m}"}`.  An expired total timeout
raises `asyncio.TimeoutError` past the `except aiohttp.ClientError`
clause instead of producing any of these values; that uncaught path is
modelled by `receive_text` on `CompletionExchange.timeoutExpired`. -/
def generate_response (r : HttpResult) : ORResponse :=
  match r with
  | .response s body =>
    if s == 200 then
      match body with
      | .choices c => .choicesResp c
      | .malformed => .otherResp
    else .errorResp ("API returned status " ++ toString s)
  | .clientError m => .errorResp ("Connection error: " ++ m)

/-! ### Persona post-processing (`ChatConsumer.generate_twin_response`) -/

/-- The dull→lively lexicon applied for a `cheerful` speaking style, in
source order. -/
def cheerfulPairs : List (String × String) :=
  [("good", "great"), ("nice", "wonderful"), ("like", "love"), ("happy", "thrilled")]

/-- The contraction expansions applied for a `formal` speaking style, in
source (dict-insertion) order. -/
def formalPairs : List (String × String) :=
  [("don\x27t", "do not"), ("can\x27t", "cannot"), ("won\x27t", "will not"),
   ("it\x27s", "it is"), ("i\x27m", "I am")]

/-- Apply a list of whole-word case-insensitive substitutions in order. -/
def applyReplacements (pairs : List (String × String)) (s : String) : String :=
  pairs.foldl (fun acc pr => replaceWholeWordCI pr.1 pr.2 acc) s

/-- The style-keyed text transform of `generate_twin_response` applied to
a successful completion `content`, for a (raw) `speaking_style` string:
`cheerful` substring → exclamatory terminal punctuation unless the text
already ends in one of `!`, `...`, `?`, then the lively-word lexicon;
`formal` substring → contraction expansion; finally Python `strip()`. -/
def applyPersonaStyle (speakingStyle content : String) : String :=
  let style := strLower speakingStyle
  let c1 :=
    if strContains style "cheerful" then
      let p :=
        if !(strEndsWith content "!" || strEndsWith content "..." || strEndsWith content "?")
        then rstripDots content ++ "!"
        else content
      applyReplacements cheerfulPairs p
    else content
  let c2 := if strContains style "formal" then applyReplacements formalPairs c1 else c1
  pyStrip c2

/-- The deterministic first-message greeting: `"Hello! I'm {name}."`,
then — when the persona description is a non-empty string whose
whitespace-split is non-empty — a space and the first ten
whitespace-separated words of the description, then
`" How can I help you today?"`. -/
def firstMessageGreeting (twinName personaDesc : String) : String :=
  let greeting := "Hello! I\x27m " ++ twinName ++ "."
  let shortDesc := joinWith " " ((pySplitWS personaDesc).take 10)
  let greeting :=
    if !(personaDesc == "") && !(shortDesc == "") then greeting ++ " " ++ shortDesc
    else greeting
  greeting ++ " How can I help you today?"

/-- `ChatConsumer.generate_twin_response`: an `error`-keyed response is
mapped to the fixed apology first; then the first-message branch returns
the deterministic greeting; then a well-formed `choices` response is
style-transformed; any other shape yields the fixed fallback. -/
def generate_twin_response (sess : Session) (resp : ORResponse) (isFirst : Bool) : String :=
  match resp with
  | .errorResp _ => "I\x27m having some technical difficulties. Could you try again?"
  | _ =>
    if isFirst then firstMessageGreeting sess.twinName sess.personaDesc
    else
      match resp with
      | .choicesResp content => applyPersonaStyle sess.speakingStyle content
      | _ => "I\x27m not sure how to respond to that. Let\x27s try another topic."

/-! ### Persistence operations -/

/-- The messages of one chat, in chronological order. -/
def chatMessages (db : DB) (chatId : Nat) : List Msg :=
  db.messages.filter (fun m => m.chatId == chatId)

/-- `MessageHistoryService.get_recent_messages`: order the chat's
messages by `-created_at`, take `limit`, then reverse back to
chronological (oldest-first) order. -/
def get_recent_messages (db : DB) (chatId : Nat) (limit : Nat) : List Msg :=
  (((chatMessages db chatId).reverse).take limit).reverse

/-- Result of `ChatConsumer.save_user_message`. -/
structure SaveResult where
  db : DB
  msgId : Nat
  isFirst : Bool
  deriving Repr

/-- `ChatConsumer.save_user_message`: record whether the chat had no
message yet, resolve `reply_to` by a bare id lookup over the whole
message table (a missing id is logged and dropped, with no chat check),
and create the row with `status='sent'`. -/
def save_user_message (db : DB) (chatId : Nat) (content : String) (msgType : String)
    (voiceNoteId : Option Nat) (replyTo : Option Nat) : SaveResult :=
  let isFirst := !(db.messages.any (fun m => m.chatId == chatId))
  let replyRef :=
    match replyTo with
    | some rid => if db.messages.any (fun m => m.id == rid) then some rid else none
    | none => none
  let msg : Msg :=
    ⟨db.nextId, chatId, true, msgType, content, "sent", replyRef, voiceNoteId⟩
  ⟨⟨db.messages ++ [msg], db.nextId + 1⟩, db.nextId, isFirst⟩

/-- `ChatConsumer.save_twin_message`: create an `is_from_user=False` text
row with the same bare-id `reply_to` resolution. -/
def save_twin_message (db : DB) (chatId : Nat) (content : String)
    (replyTo : Option Nat) : DB × Nat :=
  let replyRef :=
    match replyTo with
    | some rid => if db.messages.any (fun m => m.id == rid) then some rid else none
    | none => none
  let msg : Msg :=
    ⟨db.nextId, chatId, false, "text", content, "sent", replyRef, none⟩
  (⟨db.messages ++ [msg], db.nextId + 1⟩, db.nextId)

/-- `ChatConsumer.mark_messages_as_read`:
`Message.objects.filter(id__in=message_ids).update(status='read')` — a
bulk update touching only the `status` column, with no chat, owner or
sender restriction. -/
def mark_messages_as_read (db : DB) (messageIds : List Nat) : DB :=
  ⟨db.messages.map (fun m =>
      if messageIds.contains m.id then { m with status := "read" } else m),
    db.nextId⟩

/-- `ChatConsumer.update_voice_message_content`: set `text_content` of
one message row to the transcription. -/
def update_voice_message_content (db : DB) (messageId : Nat) (transcription : String) : DB :=
  ⟨db.messages.map (fun m =>
      if m.id == messageId then { m with textContent := transcription } else m),
    db.nextId⟩

/-! ### Consumer handlers as effect traces -/

/-- `ChatConsumer.process_twin_response`: typing on, assemble context and
call the completion endpoint, post-process, typing off, persist the twin
reply, then broadcast it as a `chat_message` (whose payload carries no
`chat_id` key). -/
def process_twin_response (sess : Session) (db : DB) (isFirst : Bool)
    (replyTo : Option Nat) (r : HttpResult) : DB × List Effect :=
  let resp := generate_response r
  let content := generate_twin_response sess resp isFirst
  let (db1, tid) := save_twin_message db sess.chatId content replyTo
  (db1,
    [.typing true "twin", .completionCall, .typing false "twin",
     .chatMessage ⟨tid, content, false, none⟩])

/-- `ChatConsumer.handle_text_message`: persist the user message,
broadcast it (this payload does include `chat_id`), then run
`process_twin_response` with the recorded first-message flag. -/
def handle_text_message (sess : Session) (db : DB) (content : String)
    (replyTo : Option Nat) (r : HttpResult) : DB × List Effect :=
  let res := save_user_message db sess.chatId content "text" none replyTo
  let wire : WireMsg := ⟨res.msgId, content, true, some sess.chatId⟩
  let (db2, evs) := process_twin_response sess res.db res.isFirst replyTo r
  (db2, .chatMessage wire :: evs)

/-- The outcome of one completion-endpoint exchange, including the path
`generate_response` does not handle: `result` is an exchange the
service's own code turns into a return value (an HTTP response, or a
caught `aiohttp.ClientError`), while `timeoutExpired` is expiry of the
configured `ClientTimeout(total=60)`, which raises
`asyncio.TimeoutError` — not an `aiohttp.ClientError` — out of
`generate_response`. -/
inductive CompletionExchange where
  | result (r : HttpResult)
  | timeoutExpired
  deriving DecidableEq, Repr

/-- `ChatConsumer.receive` dispatching a `text` frame, with the
completion call's exception path made explicit.  On a handled exchange
this is exactly `handle_text_message`.  On an expired total timeout the
`asyncio.TimeoutError` raised inside `generate_response` propagates
through `process_twin_response` and `handle_text_message` — after the
user message was persisted and broadcast and `typing=true` was published
and the completion call made — up to the catch-all `except Exception` in
`receive`, which sends the generic
`"Server error processing your message"` error event to the client: no
`typing=false` indicator, no apology, and no twin reply Message are
produced. -/
def receive_text (sess : Session) (db : DB) (content : String)
    (replyTo : Option Nat) : CompletionExchange → DB × List Effect
  | .result r => handle_text_message sess db content replyTo r
  | .timeoutExpired =>
    let res := save_user_message db sess.chatId content "text" none replyTo
    let wire : WireMsg := ⟨res.msgId, content, true, some sess.chatId⟩
    (res.db,
      [.chatMessage wire, .typing true "twin", .completionCall,
       .sendError "Server error processing your message"])

/-- `ChatConsumer.handle_read_receipt`: for a non-empty `message_ids`
list, bulk-mark the rows read and republish the same id list to the
topic; an empty list does nothing. -/
def handle_read_receipt (sess : Session) (db : DB) (messageIds : List Nat) :
    DB × List Effect :=
  if messageIds.isEmpty then (db, [])
  else
    (mark_messages_as_read db messageIds,
     [.readReceiptUpdate messageIds sess.userId])

/-- A `transcription_completed` group event as published by
`VoiceRecordingViewSet._notify_twin_of_transcription`: voice id,
transcript, owning chat id, and the dedupe tag
`notification_id = f"{voice_id}_{timestamp}"`. -/
structure TranscriptionEvent where
  voiceId : Nat
  transcription : String
  chatId : Nat
  notificationId : String
  deriving DecidableEq, Repr

/-- `ChatConsumer.transcription_completed`: forward the transcript to the
client socket, look up the message owning the voice note (a bare
`voice_note_id` filter over the whole table, with no chat or
`notification_id` check), write the transcript into it, then run the full
typing/completion/reply pipeline with `is_first_message=False`. -/
def transcription_completed (sess : Session) (db : DB) (ev : TranscriptionEvent)
    (r : HttpResult) : DB × List Effect :=
  let e0 : List Effect := [.sendTranscriptionCompleted ev.voiceId ev.transcription]
  match db.messages.find? (fun m => m.voiceNoteId == some ev.voiceId) with
  | none => (db, e0)
  | some msg =>
    let db1 := update_voice_message_content db msg.id ev.transcription
    let resp := generate_response r
    let content := generate_twin_response sess resp false
    let (db2, tid) := save_twin_message db1 sess.chatId content none
    (db2,
      e0 ++ [.typing true "twin", .completionCall, .typing false "twin",
             .chatMessage ⟨tid, content, false, none⟩])

/-- `ChatConsumer.chat_message` (delivery side): drop the event when its
payload carries a `chat_id` different from the session's chat; otherwise
— including when the payload has no `chat_id` key at all — forward it to
the client socket. -/
def chat_message (sess : Session) (m : WireMsg) : List Effect :=
  match m.chatId with
  | some cid => if cid != sess.chatId then [] else [.forwardMessage m]
  | none => [.forwardMessage m]

/-- `MessageSerializer.validate_reply_to` (the REST create path): when a
reply target is given and the request carries a `chat` id, a target whose
`chat_id` differs is rejected with a validation error. -/
def validate_reply_to (replyTarget : Option Msg) (requestChat : Option Nat) : Bool :=
  match replyTarget, requestChat with
  | some target, some chatId => !(target.chatId != chatId)
  | _, _ => true

/-! ### Speech-to-text service (`SpeechToTextService`) -/

/-- One kind of call to the external speech service. -/
inductive SpeechCall where
  | upload
  | submit
  | poll
  deriving DecidableEq, Repr

/-- Environment behaviour of the external speech service for one
transcription: the upload URL (if the retried upload succeeds), the
transcript job id (if submission succeeds), and the polled transcript. -/
structure SpeechEnv where
  uploadUrl : Option String
  transcriptId : Option String
  pollTranscript : Option String
  deriving Repr

/-- `SpeechToTextService._is_valid_audio_file`: fewer than 12 bytes fails;
then the known leading signatures (WAV `RIFF`, MP3 `ID3` or `\xFF\xFB`,
OGG `OggS`, FLAC `fLaC`, WEBM `\x1A\x45\xDF\xA3`), an MP3 frame-sync
check on the first two bytes, and a `matroska`/`webm` byte search in the
first 100 bytes; anything else fails. -/
def is_valid_audio_file (content : List Nat) : Bool :=
  if content.length < 12 then false
  else if [0x52, 0x49, 0x46, 0x46].isPrefixOf content then true
  else if [0x49, 0x44, 0x33].isPrefixOf content then true
  else if [0xFF, 0xFB].isPrefixOf content then true
  else if [0x4F, 0x67, 0x67, 0x53].isPrefixOf content then true
  else if [0x66, 0x4C, 0x61, 0x43].isPrefixOf content then true
  else if [0x1A, 0x45, 0xDF, 0xA3].isPrefixOf content then true
  else if content.headD 0 == 0xFF && (content.getD 1 0 &&& 0xE0) == 0xE0 then true
  else if containsSeq ("matroska".data.map (fun c => c.toNat)) (content.take 100)
       || containsSeq ("webm".data.map (fun c => c.toNat)) (content.take 100) then true
  else if content.length < 1000 then false
  else false

/-- `SpeechToTextService.transcribe_voice`, given the fetched file bytes:
the validation chain (falsy/empty content, the dead zero-length branch, a
1000-byte minimum, a 25MB maximum, then the signature check) returns an
error string with no external call; only then are upload, submit and poll
issued, each failure mapping to its error string and an empty or blank
polled transcript mapping to the `"No speech detected."` sentinel. -/
def transcribe_voice (env : SpeechEnv) (content : List Nat) : String × List SpeechCall :=
  if content.isEmpty then ("Could not access voice recording file.", [])
  else if content.length == 0 then ("Voice recording file is empty.", [])
  else if content.length < 1000 then
    ("Voice recording file is too small to be processed (minimum 1KB required).", [])
  else if content.length > 25 * 1024 * 1024 then
    ("Voice recording file exceeds maximum size limit of 25MB.", [])
  else if !is_valid_audio_file content then
    ("Invalid audio file format. Please use a supported audio format.", [])
  else
    match env.uploadUrl with
    | none => ("Failed to upload audio file for transcription.", [.upload])
    | some _ =>
      match env.transcriptId with
      | none => ("Failed to initialize transcription.", [.upload, .submit])
      | some _ =>
        match env.pollTranscript with
        | none => ("No speech detected.", [.upload, .submit, .poll])
        | some t =>
          (if t == "" then "No speech detected." else t, [.upload, .submit, .poll])

/-- The validation-failure strings `transcribe_voice` can return without
contacting the external service. -/
def validationErrors : List String :=
  ["Could not access voice recording file.",
   "Voice recording file is empty.",
   "Voice recording file is too small to be processed (minimum 1KB required).",
   "Voice recording file exceeds maximum size limit of 25MB.",
   "Invalid audio file format. Please use a supported audio format."]

/-! ### Context assembly (`OpenRouterService.get_conversation_context`) -/

/-- One entry of the prompt list sent to the completion endpoint. -/
structure ChatEntry where
  role : String
  content : String
  deriving DecidableEq, Repr

/-- The hard-coded `max_context_length` of `OpenRouterService`. -/
def max_context_length : Nat := 15

/-- `OpenRouterService.get_conversation_context`: a persona system
prompt, an optional conversation-summary system entry, then the last
`limit` history messages (`message_history[-limit:]`) mapped to
`user`/`assistant` roles by `is_from_user`. -/
def get_conversation_context (systemPrompt : String) (summary : Option String)
    (messageHistory : List Msg) (limit : Nat := max_context_length) : List ChatEntry :=
  let sys : List ChatEntry :=
    ⟨"system", systemPrompt⟩ ::
      (match summary with
       | some s => [⟨"system", s⟩]
       | none => [])
  sys ++ ((messageHistory.reverse.take limit).reverse.map (fun m =>
    ⟨if m.isFromUser then "user" else "assistant", m.textContent⟩))

/-! ### Concrete fixtures used in the closed theorems -/

/-- A session on chat 1 for a twin with empty persona data. -/
def sessZed : Session := ⟨1, 42, "Zed", "", ""⟩

/-- A session on chat 1 whose twin has a multi-sentence persona
description. -/
def sessMentor : Session :=
  ⟨1, 42, "Zed",
   "A wise mentor. Extra words beyond the first sentence here now indeed.", ""⟩

/-- A chat-1 voice message awaiting its transcript, tied to voice
recording 7. -/
def voiceRow : Msg := ⟨1, 1, true, "voice", "", "sent", none, some 7⟩

/-- A database holding only `voiceRow`. -/
def dbVoice : DB := ⟨[voiceRow], 2⟩

/-- A database holding one message that belongs to chat 99. -/
def dbOther : DB := ⟨[⟨1, 99, true, "text", "from another chat", "sent", none, none⟩], 2⟩

/-- A completed transcription event for voice recording 7 on chat 1. -/
def evVoice7 : TranscriptionEvent := ⟨7, "hello there", 1, "7_1700000000"⟩

/-- A successful completion-endpoint exchange. -/
def okResult : HttpResult := .response 200 (.choices "Sure!")

/-- Recognise the broadcast of an AI (twin) reply message. -/
def isTwinReplyBroadcast : Effect → Bool
  | .chatMessage m => !m.isFromUser
  | _ => false

/-- Recognise a direct `error` event to the client. -/
def isErrorSend : Effect → Bool
  | .sendError _ => true
  | _ => false

end DigitalTwin

namespace DigitalTwin

/-! ## Theorems settling the claims -/

/-- C1: the claim that re-delivering a `transcription_completed`
notification with the same `notificationId` is a no-op fails on the code.
`ChatConsumer.transcription_completed` never reads the event's
`notification_id`: delivering the very same event a second time writes
the transcript again, and — shown here — generates, persists and
broadcasts a second AI reply. -/
theorem C1_redelivery_not_noop :
    ((transcription_completed sessZed
        (transcription_completed sessZed dbVoice evVoice7 okResult).1
        evVoice7 okResult).2.filter isTwinReplyBroadcast).length = 1 ∧
    ((transcription_completed sessZed
        (transcription_completed sessZed dbVoice evVoice7 okResult).1
        evVoice7 okResult).1.messages.filter (fun m => !m.isFromUser)).length = 2 := by
  decide

/-- C2: the claim that a `replyTo` referencing a Message of a different
chat is rejected and never persisted fails on the WebSocket frame path.
`dbOther` holds message 1 in chat 99; a text frame on chat 1 replying to
it is persisted with the cross-chat reference and no `error` event is
emitted. -/
theorem C2_cross_chat_reply_persisted :
    ((dbOther.messages.filter (fun m => m.id == 1)).all (fun m => m.chatId == 99)) = true ∧
    ((handle_text_message sessZed dbOther "hi" (some 1) okResult).1.messages.any
      (fun m => m.chatId == 1 && m.replyTo == some 1)) = true ∧
    ((handle_text_message sessZed dbOther "hi" (some 1) okResult).2.any isErrorSend) = false := by
  decide

/-- C3 (counterexample): on the first message of a chat the Response
Orchestrator does NOT skip the completion endpoint — the call appears in
the trace — and the greeting it broadcasts is built from the first ten
words of the persona description (running past the first sentence
`"A wise mentor."`); moreover, when the completion call fails, the
broadcast is the apology, not the greeting. -/
theorem C3_first_message_counterexample :
    ((handle_text_message sessMentor ⟨[], 1⟩ "Hello" none okResult).2.contains
      .completionCall) = true ∧
    (handle_text_message sessMentor ⟨[], 1⟩ "Hello" none okResult).2.getLast? =
      some (.chatMessage ⟨2,
        "Hello! I\x27m Zed. A wise mentor. Extra words beyond the first sentence here How can I help you today?",
        false, none⟩) ∧
    (handle_text_message sessMentor ⟨[], 1⟩ "Hello" none (.clientError "timeout")).2.getLast? =
      some (.chatMessage ⟨2,
        "I\x27m having some technical difficulties. Could you try again?",
        false, none⟩) := by
  decide

/-- C3 (amended): on the first Message ever recorded for a chat the
completion endpoint is still called, but when the HTTP exchange does not
produce an error response its result is discarded: the persisted and
broadcast twin reply is the deterministic greeting built from the twin's
name and the first ten whitespace-separated words of its persona
description. -/
theorem C3_first_message_greeting (sess : Session) (db : DB) (content : String)
    (replyTo : Option Nat) (body : ORBody)
    (h : db.messages.any (fun m => m.chatId == sess.chatId) = false) :
    ((handle_text_message sess db content replyTo (.response 200 body)).2.contains
      .completionCall) = true ∧
    (handle_text_message sess db content replyTo (.response 200 body)).2.getLast? =
      some (.chatMessage ⟨db.nextId + 1,
        firstMessageGreeting sess.twinName sess.personaDesc, false, none⟩) ∧
    ∃ rt, (handle_text_message sess db content replyTo (.response 200 body)).1.messages.getLast? =
      some ⟨db.nextId + 1, sess.chatId, false, "text",
        firstMessageGreeting sess.twinName sess.personaDesc, "sent", rt, none⟩ := by
  cases body <;>
    simp [handle_text_message, process_twin_response, save_user_message, save_twin_message,
      generate_response, generate_twin_response, h, List.getLast?_concat]

/-- C3 (witness): the amended theorem applied to a concrete empty chat. -/
theorem C3_first_message_greeting_witness :
    ((handle_text_message sessMentor ⟨[], 1⟩ "Hello" none (.response 200 (.choices "Sure!"))).2.contains
      .completionCall) = true ∧
    (handle_text_message sessMentor ⟨[], 1⟩ "Hello" none (.response 200 (.choices "Sure!"))).2.getLast? =
      some (.chatMessage ⟨2,
        firstMessageGreeting sessMentor.twinName sessMentor.personaDesc, false, none⟩) ∧
    ∃ rt, (handle_text_message sessMentor ⟨[], 1⟩ "Hello" none (.response 200 (.choices "Sure!"))).1.messages.getLast? =
      some ⟨2, sessMentor.chatId, false, "text",
        firstMessageGreeting sessMentor.twinName sessMentor.personaDesc, "sent", rt, none⟩ :=
  C3_first_message_greeting sessMentor ⟨[], 1⟩ "Hello" none (.choices "Sure!") (by decide)

/-- C4 (counterexample): the claim that the reply broadcast is followed
by a `typing_indicator=false` event fails — in a concrete run of
`process_twin_response`, the `typing_indicator=false` event is published
BEFORE the reply broadcast, and the reply broadcast is the final event of
the trace, with nothing after it. -/
theorem C4_counterexample :
    (process_twin_response sessZed ⟨[], 5⟩ false none okResult).2 =
      [.typing true "twin", .completionCall, .typing false "twin",
       .chatMessage ⟨5, "Sure!", false, none⟩] ∧
    (process_twin_response sessZed ⟨[], 5⟩ false none okResult).2.getLast? =
      some (.chatMessage ⟨5, "Sure!", false, none⟩) := by
  decide

/-- C4 (amended): for every run of the text/voice reply pipeline
(`process_twin_response`), the broadcast of the persisted AI reply is
preceded on the topic by a `typing_indicator=true` event and then a
`typing_indicator=false` event, in that order; the `false` indicator is
published before — not after — the reply broadcast, which is the last
event of the pipeline. -/
theorem C4_typing_order (sess : Session) (db : DB) (isFirst : Bool)
    (replyTo : Option Nat) (r : HttpResult) :
    ∃ m : WireMsg, m.isFromUser = false ∧
      (process_twin_response sess db isFirst replyTo r).2 =
        [.typing true "twin", .completionCall, .typing false "twin", .chatMessage m] := by
  exact ⟨⟨db.nextId, generate_twin_response sess (generate_response r) isFirst, false, none⟩,
    rfl, rfl⟩

/-- C9 (counterexample): the claim that every delivered event is
re-validated against the session's chat fails for `transcription_completed`
events — an event whose `chat_id` (2) differs from the session's chat (1)
is still forwarded to the client socket as the handler's first action. -/
theorem C9_counterexample :
    (TranscriptionEvent.chatId ⟨7, "hello there", 2, "x"⟩ ≠ sessZed.chatId) ∧
    (transcription_completed sessZed dbVoice ⟨7, "hello there", 2, "x"⟩ okResult).2.head? =
      some (.sendTranscriptionCompleted 7 "hello there") := by
  decide

/-- C9 (amended): only `chat_message` events whose payload carries a
`chat_id` are re-validated against the session's chat and dropped on
mismatch; a `chat_message` payload without a `chat_id` key and every
`transcription_completed` event are forwarded to the client socket
without any chat validation. -/
theorem C9_chat_id_validation :
    (∀ (sess : Session) (m : WireMsg) (cid : Nat),
        m.chatId = some cid → cid ≠ sess.chatId → chat_message sess m = []) ∧
    (∀ (sess : Session) (m : WireMsg),
        m.chatId = some sess.chatId → chat_message sess m = [.forwardMessage m]) ∧
    (∀ (sess : Session) (m : WireMsg),
        m.chatId = none → chat_message sess m = [.forwardMessage m]) ∧
    (∀ (sess : Session) (db : DB) (ev : TranscriptionEvent) (r : HttpResult),
        (transcription_completed sess db ev r).2.head? =
          some (.sendTranscriptionCompleted ev.voiceId ev.transcription)) := by
  refine ⟨?_, ?_, ?_, ?_⟩
  · intro sess m cid hm hne
    simp [chat_message, hm, bne_iff_ne, hne]
  · intro sess m hm
    simp [chat_message, hm]
  · intro sess m hm
    simp [chat_message, hm]
  · intro sess db ev r
    unfold transcription_completed
    cases h : db.messages.find? (fun m => m.voiceNoteId == some ev.voiceId) <;> simp [h]

/-- C9 (witness): the amended theorem applied concretely — a
`chat_message` event for chat 2 is dropped by a session on chat 1. -/
theorem C9_chat_id_validation_witness :
    chat_message sessZed ⟨5, "x", true, some 2⟩ = [] :=
  C9_chat_id_validation.1 sessZed ⟨5, "x", true, some 2⟩ 2 rfl (by decide)

/-- C5: for every chat history, the conversation context assembled for a
completion call contains, besides the system entries, at most 15 message
entries; they are the images of a suffix (hence the most recent slice) of
the chat's chronologically ordered messages, of length
`min 15 (history length)`, each mapped to role `user` when `isFromUser`
holds and `assistant` otherwise, preserving chronological order. -/
theorem C5_context_window (db : DB) (chatId : Nat) (prompt : String)
    (summary : Option String) :
    ((get_conversation_context prompt summary (get_recent_messages db chatId 15)).filter
        (fun e => e.role != "system")).length ≤ 15 ∧
    ∃ src : List Msg, src <:+ chatMessages db chatId ∧
      src.length = min 15 (chatMessages db chatId).length ∧
      (get_conversation_context prompt summary (get_recent_messages db chatId 15)).filter
          (fun e => e.role != "system") =
        src.map (fun m =>
          ⟨if m.isFromUser then "user" else "assistant", m.textContent⟩) := by
  set l := chatMessages db chatId with hl
  set tr : List Msg := (l.reverse.take 15).reverse with htr
  have hrecent : get_recent_messages db chatId 15 = tr := rfl
  have htake : (tr.reverse.take 15).reverse = tr := by
    rw [htr, List.reverse_reverse, List.take_take]
    simp
  have hctx : (get_conversation_context prompt summary tr).filter (fun e => e.role != "system") =
      tr.map (fun m => ⟨if m.isFromUser then "user" else "assistant", m.textContent⟩) := by
    simp only [get_conversation_context, max_context_length]
    rw [htake, List.filter_append]
    have h1 : (⟨"system", prompt⟩ ::
        (match summary with
         | some s => [(⟨"system", s⟩ : ChatEntry)]
         | none => [])).filter (fun e => e.role != "system") = [] := by
      cases summary <;> simp
    rw [h1, List.nil_append]
    apply List.filter_eq_self.mpr
    intro e he
    obtain ⟨m, _, rfl⟩ := List.mem_map.mp he
    by_cases hm : m.isFromUser <;> simp [hm]
  have hlen : tr.length = min 15 l.length := by
    rw [htr, List.length_reverse, List.length_take, List.length_reverse]
  refine ⟨?_, tr, ?_, hlen, ?_⟩
  · rw [hrecent, hctx, List.length_map, hlen]
    exact Nat.min_le_left _ _
  · rw [← List.reverse_prefix, htr, List.reverse_reverse]
    exact List.take_prefix _ _
  · rw [hrecent, hctx]

/-- C6: the persona post-processing transform is deterministic on the
spec's probe inputs — with a `cheerful` speaking style the completion
text `"That was good."` becomes `"That was great!"` (ends with `"!"`,
contains `great`, no whole word `good` remains), and with a `formal`
style `"I can't do that."` becomes `"I cannot do that."` (contains
`cannot`). -/
theorem C6_persona_transform_determinism :
    generate_twin_response ⟨1, 42, "Zed", "", "cheerful"⟩
        (.choicesResp "That was good.") false = "That was great!" ∧
    strEndsWith (generate_twin_response ⟨1, 42, "Zed", "", "cheerful"⟩
        (.choicesResp "That was good.") false) "!" = true ∧
    strContains (generate_twin_response ⟨1, 42, "Zed", "", "cheerful"⟩
        (.choicesResp "That was good.") false) "great" = true ∧
    strContains (generate_twin_response ⟨1, 42, "Zed", "", "cheerful"⟩
        (.choicesResp "That was good.") false) "good" = false ∧
    generate_twin_response ⟨1, 42, "Zed", "", "formal"⟩
        (.choicesResp "I can\x27t do that.") false = "I cannot do that." ∧
    strContains (generate_twin_response ⟨1, 42, "Zed", "", "formal"⟩
        (.choicesResp "I can\x27t do that.") false) "cannot" = true := by
  decide

/-- C7: for every transcription request whose file content is empty,
below the 1000-byte minimum, above the 25MB maximum, or whose leading
bytes match no known audio signature, `transcribe_voice` returns one of
the validation-failure strings and issues no upload, submit or poll call
to the external speech service, whatever that service would answer. -/
theorem C7_validation_short_circuits (env : SpeechEnv) (content : List Nat)
    (h : content = [] ∨ content.length < 1000 ∨ content.length > 25 * 1024 * 1024 ∨
         is_valid_audio_file content = false) :
    (transcribe_voice env content).1 ∈ validationErrors ∧
    (transcribe_voice env content).2 = [] := by
  by_cases h1 : content.isEmpty
  · simp [transcribe_voice, h1, validationErrors]
  · have h0 : content ≠ [] := by simpa [List.isEmpty_iff] using h1
    have h0len : (content.length == 0) = false := by
      simp [List.length_eq_zero, h0]
    by_cases h2 : content.length < 1000
    · simp [transcribe_voice, h1, h0len, h2, validationErrors]
    · by_cases h3 : content.length > 25 * 1024 * 1024
      · simp [transcribe_voice, h1, h0len, h2, h3, validationErrors]
      · have h4 : is_valid_audio_file content = false := by
          rcases h with h | h | h | h
          · exact absurd h h0
          · exact absurd h h2
          · exact absurd h h3
          · exact h
        simp [transcribe_voice, h1, h0len, h2, h3, h4, validationErrors]

/-- C7 (witness): a 20-byte file is rejected with a validation string and
no external call. -/
theorem C7_validation_short_circuits_witness :
    (transcribe_voice ⟨none, none, none⟩ (List.replicate 20 0)).1 ∈ validationErrors ∧
    (transcribe_voice ⟨none, none, none⟩ (List.replicate 20 0)).2 = [] :=
  C7_validation_short_circuits ⟨none, none, none⟩ (List.replicate 20 0)
    (Or.inr (Or.inl (by decide)))

/-- C8 (counterexample): the claim that a completion call that times out
yields the fixed apology fails — expiry of the configured total timeout
raises `asyncio.TimeoutError` past `except aiohttp.ClientError`, so in a
concrete timed-out run no twin reply is broadcast, no twin Message is
persisted, the apology string appears in no persisted row, the typing
indicator is never switched off, and the last event is the router
catch-all's generic error, not an apology Message. -/
theorem C8_timeout_counterexample :
    (receive_text sessZed ⟨[], 3⟩ "hi" none .timeoutExpired).2.filter
      isTwinReplyBroadcast = [] ∧
    (receive_text sessZed ⟨[], 3⟩ "hi" none .timeoutExpired).1.messages.filter
      (fun m => !m.isFromUser) = [] ∧
    ((receive_text sessZed ⟨[], 3⟩ "hi" none .timeoutExpired).1.messages.any (fun m =>
      m.textContent == "I\x27m having some technical difficulties. Could you try again?")) =
      false ∧
    ((receive_text sessZed ⟨[], 3⟩ "hi" none .timeoutExpired).2.any (fun e =>
      match e with
      | .typing false _ => true
      | _ => false)) = false ∧
    (receive_text sessZed ⟨[], 3⟩ "hi" none .timeoutExpired).2.getLast? =
      some (.sendError "Server error processing your message") := by
  decide

/-- C8 (amended): a completion call that returns a non-success HTTP
response or fails with a caught `aiohttp.ClientError` makes the pipeline
persist and broadcast the fixed apology string as the twin reply; but an
expired total timeout raises `asyncio.TimeoutError` past
`except aiohttp.ClientError`, aborting the pipeline after the user
message broadcast, the `typing=true` event and the completion call: the
router's catch-all emits only a generic error event, no twin Message is
added, and no `typing=false` follows. -/
theorem C8_failure_paths :
    (∀ (sess : Session) (db : DB) (isFirst : Bool) (replyTo : Option Nat) (r : HttpResult),
      ((∃ s body, r = .response s body ∧ s ≠ 200) ∨ ∃ m, r = .clientError m) →
      (process_twin_response sess db isFirst replyTo r).2.getLast? =
        some (.chatMessage ⟨db.nextId,
          "I\x27m having some technical difficulties. Could you try again?", false, none⟩) ∧
      ∃ mr ∈ (process_twin_response sess db isFirst replyTo r).1.messages,
        mr.isFromUser = false ∧
        mr.textContent = "I\x27m having some technical difficulties. Could you try again?") ∧
    (∀ (sess : Session) (db : DB) (content : String) (replyTo : Option Nat),
      (receive_text sess db content replyTo .timeoutExpired).2 =
        [.chatMessage ⟨db.nextId, content, true, some sess.chatId⟩, .typing true "twin",
         .completionCall, .sendError "Server error processing your message"] ∧
      (receive_text sess db content replyTo .timeoutExpired).1.messages.filter
          (fun m => !m.isFromUser) =
        db.messages.filter (fun m => !m.isFromUser)) := by
  constructor
  · intro sess db isFirst replyTo r h
    have hgt : generate_twin_response sess (generate_response r) isFirst =
        "I\x27m having some technical difficulties. Could you try again?" := by
      rcases h with ⟨s, body, rfl, hs⟩ | ⟨m, rfl⟩
      · have hb : (s == 200) = false := by simp [hs]
        simp [generate_response, hb, generate_twin_response]
      · simp [generate_response, generate_twin_response]
    refine ⟨?_, ?_⟩
    · simp [process_twin_response, save_twin_message, hgt]
    · refine ⟨⟨db.nextId, sess.chatId, false, "text",
        "I\x27m having some technical difficulties. Could you try again?", "sent",
        (match replyTo with
         | some rid => if db.messages.any (fun m => m.id == rid) then some rid else none
         | none => none), none⟩, ?_, rfl, rfl⟩
      simp [process_twin_response, save_twin_message, hgt]
  · intro sess db content replyTo
    refine ⟨rfl, ?_⟩
    simp [receive_text, save_user_message]

/-- C8 (witness): the amended theorem applied concretely — a caught
connection failure produces the broadcast, persisted apology, and a
timed-out call on the same database leaves its twin rows unchanged. -/
theorem C8_failure_paths_witness :
    ((process_twin_response sessZed ⟨[], 0⟩ false none (.clientError "connection reset")).2.getLast? =
      some (.chatMessage ⟨0,
        "I\x27m having some technical difficulties. Could you try again?", false, none⟩) ∧
    ∃ mr ∈ (process_twin_response sessZed ⟨[], 0⟩ false none
        (.clientError "connection reset")).1.messages,
      mr.isFromUser = false ∧
      mr.textContent = "I\x27m having some technical difficulties. Could you try again?") ∧
    (receive_text sessZed ⟨[], 0⟩ "hi" none .timeoutExpired).1.messages.filter
        (fun m => !m.isFromUser) =
      (DB.mk [] 0).messages.filter (fun m => !m.isFromUser) :=
  ⟨C8_failure_paths.1 sessZed ⟨[], 0⟩ false none (.clientError "connection reset")
      (Or.inr ⟨"connection reset", rfl⟩),
   (C8_failure_paths.2 sessZed ⟨[], 0⟩ "hi" none).2⟩

/-- C10: a `read_receipt` frame with a non-empty id list sets
`status='read'` on exactly the rows whose ids are listed — with no
restriction to the connection's chat, owner or sender — changes no other
field of any row and no other row (positions, lengths and all the other
seven fields are preserved), and republishes the same id list to the
topic. -/
theorem C10_read_receipt (sess : Session) (db : DB) (ids : List Nat)
    (h : ids ≠ []) :
    (handle_read_receipt sess db ids).2 = [.readReceiptUpdate ids sess.userId] ∧
    ∀ i : Nat,
      (handle_read_receipt sess db ids).1.messages[i]? =
        (db.messages[i]?).map (fun od =>
          ⟨od.id, od.chatId, od.isFromUser, od.msgType, od.textContent,
            if ids.contains od.id then "read" else od.status,
            od.replyTo, od.voiceNoteId⟩) := by
  have hne : ids.isEmpty = false := by simpa [List.isEmpty_iff] using h
  constructor
  · simp [handle_read_receipt, hne]
  · intro i
    simp only [handle_read_receipt, hne, Bool.false_eq_true, if_false,
      mark_messages_as_read, List.getElem?_map]
    cases hm : db.messages[i]? with
    | none => rfl
    | some od =>
      obtain ⟨oid, och, ofu, omt, otc, ost, ort, ovn⟩ := od
      by_cases hc : oid ∈ ids <;> simp [hc]

/-- C10 (witness): a read receipt for id 1 marks the chat-99 row read —
the listed id is updated even though the session is on chat 1. -/
theorem C10_read_receipt_witness :
    (handle_read_receipt sessZed dbOther [1]).2 = [.readReceiptUpdate [1] 42] ∧
    (handle_read_receipt sessZed dbOther [1]).1.messages[0]? =
      (dbOther.messages[0]?).map (fun od =>
        ⟨od.id, od.chatId, od.isFromUser, od.msgType, od.textContent,
          if [1].contains od.id then "read" else od.status,
          od.replyTo, od.voiceNoteId⟩) :=
  ⟨(C10_read_receipt sessZed dbOther [1] (by decide)).1,
   (C10_read_receipt sessZed dbOther [1] (by decide)).2 0⟩

end DigitalTwin
